import Mathlib

/-!
Verification of the CDKTF asset-management repository's dependency-resolution
layer: the dependency schema, the publisher (`DependencyStack`), and the
resolver (`BaseStack.getDependency` / `BaseStack.getSetting`), as a shallow
embedding in Lean.

Conventions of the embedding:
* TypeScript objects serialized through JSON are modelled by the `Json`
  inductive (association-list objects); `JSON.stringify` / `Fn.jsonencode`
  by `Json.stringify`.
* The deferred Terraform expressions the code builds (`Fn.jsondecode`,
  `Fn.lookup`, `Fn.lookupNested`, data-source attribute reads, template
  interpolation) are the `TfExpr` inductive; the external two-stage
  evaluator and the external stores are modelled by `World` / `World.evalE`.
* The type-level part of the resolver (the generic constraints on the
  accessor and the `InferPath` conditional type) is modelled by the `Ty`
  inductive and the functions `InferPath`, `pathCallAccepted`,
  `attrCallAccepted`.
-/

namespace AssetManagement

/-- A JSON document, with objects as association lists in insertion order
(models the JavaScript values the code serializes and the documents the
stores hold). TS numbers appearing in the schema are only ever the integer
literals of the example data, so they are modelled by `Int`. -/
inductive Json where
  | null : Json
  | bool (b : Bool) : Json
  | num (n : Int) : Json
  | str (s : String) : Json
  | arr (elems : List Json) : Json
  | obj (fields : List (String × Json)) : Json

/-- Escaping of one character inside a JSON string literal, as
`JSON.stringify` renders it (quote, backslash and the common control
characters; other characters are emitted as themselves). -/
def escapeChar (c : Char) : String :=
  if c = '"' then "\\\""
  else if c = '\\' then "\\\\"
  else if c = '\n' then "\\n"
  else if c = '\t' then "\\t"
  else if c = '\r' then "\\r"
  else String.singleton c

/-- Escaping of a whole JSON string literal body. -/
def escapeString (s : String) : String :=
  String.join (s.toList.map escapeChar)

mutual

/-- Model of `JSON.stringify` / `Fn.jsonencode` on a document. -/
def Json.stringify : Json → String
  | .null => "null"
  | .bool b => if b then "true" else "false"
  | .num n => toString n
  | .str s => "\"" ++ escapeString s ++ "\""
  | .arr elems => "[" ++ String.intercalate "," (Json.stringifyList elems) ++ "]"
  | .obj fields =>
      "\x7b" ++ String.intercalate "," (Json.stringifyFields fields) ++ "\x7d"

/-- Renders each element of a JSON array. -/
def Json.stringifyList : List Json → List String
  | [] => []
  | j :: js => j.stringify :: Json.stringifyList js

/-- Renders each `"key":value` entry of a JSON object. -/
def Json.stringifyFields : List (String × Json) → List String
  | [] => []
  | (k, v) :: fs => ("\"" ++ escapeString k ++ "\":" ++ v.stringify) :: Json.stringifyFields fs

end

/-- Key lookup in a JSON object (`doc[key]`); `none` on non-objects and
absent keys (JavaScript's `undefined`). -/
def Json.lookupKey : Json → String → Option Json
  | .obj fields, key => fields.lookup key
  | _, _ => none

/-- Nested path lookup in a JSON document, the semantics of the external
evaluator's `Fn.lookupNested(doc, path)`; `none` (unresolved / `undefined`)
as soon as a segment is absent. -/
def Json.lookupPath : Json → List String → Option Json
  | j, [] => some j
  | j, key :: rest =>
      match j.lookupKey key with
      | some v => v.lookupPath rest
      | none => none

/-- Terraform's string coercion used when a value is interpolated into a
template: strings, numbers and booleans render; structured values do not. -/
def Json.asString : Json → Option String
  | .str s => some s
  | .num n => some (toString n)
  | .bool b => some (if b then "true" else "false")
  | _ => none

/-- The fragment of TypeScript types the schema and the accessor's declared
result type live in: the primitive types of the attribute shapes, object
types as ordered field lists, and `never` (what the `InferPath` conditional
type produces on an illegal path). -/
inductive Ty where
  | str : Ty
  | num : Ty
  | bool : Ty
  | obj (fields : List (String × Ty)) : Ty
  | never : Ty

/-- Type-level indexing `T[key]`: defined exactly on object types whose
field list has the key (the schema's shapes are object types; `keyof` on a
primitive type, which in TS would name its methods, does not occur in the
schema fragment). -/
def Ty.index : Ty → String → Option Ty
  | .obj fields, key => fields.lookup key
  | _, _ => none

/-- The `InferPath` conditional type of `BaseStack` (part_004):
`InferPath<T, P> = P extends [First, ...Rest] ? (First extends keyof T ?
InferPath<T[First], Rest> : never) : T`. -/
def InferPath : Ty → List String → Ty
  | t, [] => t
  | t, first :: rest =>
      match t.index first with
      | some tFirst => InferPath tFirst rest
      | none => .never

/-- Modelled from the spec (section 4.4): the schema-derived type at a path,
by repeated indexing, with an illegal segment rejected outright rather than
mapped to `never`. Used only to compare the source's `InferPath` against
the spec's description. -/
def specPathType : Ty → List String → Option Ty
  | t, [] => some t
  | t, first :: rest =>
      match t.index first with
      | some tFirst => specPathType tFirst rest
      | none => none

/-- The `Dependencies` enum of `BaseStack/types.ts`. -/
inductive Dependencies where
  | DATABASE : Dependencies
  | SENTRY : Dependencies
  | EXAMPLE : Dependencies
deriving Repr, DecidableEq

/-- The string value of each enum member (the enum is string-valued). -/
def Dependencies.str : Dependencies → String
  | .DATABASE => "DATABASE"
  | .SENTRY => "SENTRY"
  | .EXAMPLE => "EXAMPLE"

/-- The `DependecyAttributes` interface of `BaseStack/types.ts` at the type
level: the attribute shape of each dependency kind. -/
def DependecyAttributesTy : Dependencies → Ty
  | .DATABASE => .obj [("url", .str), ("username", .str), ("password", .str)]
  | .SENTRY => .obj [("dsn", .str)]
  | .EXAMPLE => .obj [("str", .str), ("num", .num), ("bool", .bool)]

/-- The declared return type of the part_004 accessor at a path:
`InferPath<DependecyAttributes[Dep], Path>`. -/
def accessorDeclaredType (dep : Dependencies) (path : List String) : Ty :=
  InferPath (DependecyAttributesTy dep) path

/-- The part_004 accessor's generic constraint `Path extends string[]`: the
type checker accepts any tuple of string literals as the path, for any
dependency kind — the shape enters only through the declared result type
`InferPath<DependecyAttributes[Dep], Path>`. -/
def pathCallAccepted (_path : List String) : Bool := true

/-- The earlier accessor's constraint (`src/lib/BaseStack/index.ts`):
`Attr extends keyof DependecyAttributes[Dep]`, so a call type-checks only
when the attribute is a key of the kind's shape. -/
def attrCallAccepted (dep : Dependencies) (attr : String) : Bool :=
  ((DependecyAttributesTy dep).index attr).isSome

/-- The `DATABASE` attribute record. -/
structure DatabaseAttributes where
  url : String
  username : String
  password : String
deriving Repr, DecidableEq

/-- The `SENTRY` attribute record. -/
structure SentryAttributes where
  dsn : String
deriving Repr, DecidableEq

/-- The `EXAMPLE` attribute record. -/
structure ExampleAttributes where
  str : String
  num : Int
  bool : Bool
deriving Repr, DecidableEq

/-- A `Partial<DependecyAttributes>` value: each dependency kind optionally
present for one asset. -/
structure PartialDependecyAttributes where
  DATABASE : Option DatabaseAttributes := none
  SENTRY : Option SentryAttributes := none
  EXAMPLE : Option ExampleAttributes := none
deriving Repr, DecidableEq

def DatabaseAttributes.toJson (a : DatabaseAttributes) : Json :=
  .obj [("url", .str a.url), ("username", .str a.username), ("password", .str a.password)]

def SentryAttributes.toJson (a : SentryAttributes) : Json :=
  .obj [("dsn", .str a.dsn)]

def ExampleAttributes.toJson (a : ExampleAttributes) : Json :=
  .obj [("str", .str a.str), ("num", .num a.num), ("bool", .bool a.bool)]

/-- The JSON document of one asset's partial attribute map, kinds in the
interface's declaration order, absent kinds omitted (as `JSON.stringify`
omits `undefined` properties). -/
def PartialDependecyAttributes.toJson (p : PartialDependecyAttributes) : Json :=
  .obj (((p.DATABASE.map fun a => ("DATABASE", a.toJson)).toList) ++
        ((p.SENTRY.map fun a => ("SENTRY", a.toJson)).toList) ++
        ((p.EXAMPLE.map fun a => ("EXAMPLE", a.toJson)).toList))

/-- The namespace blob the publisher serializes: the
`{ [key: string]: Partial<DependecyAttributes> }` record of
`DependencyStackProps`, as a JSON document. -/
def blobJson (dependencies : List (String × PartialDependecyAttributes)) : Json :=
  .obj (dependencies.map fun d => (d.1, d.2.toJson))

/-- The `settings` object of `DependencyStackProps` (`DependencyStack/types.ts`). -/
structure Settings where
  subnetIds : List String
  vpcId : String
  dependencySecretNamePrefix : String
deriving Repr, DecidableEq

/-- The settings map as the JSON document `Fn.jsonencode(props.settings)`
publishes. -/
def Settings.toJson (s : Settings) : Json :=
  .obj [("subnetIds", .arr (s.subnetIds.map .str)),
        ("vpcId", .str s.vpcId),
        ("dependencySecretNamePrefix", .str s.dependencySecretNamePrefix)]

/-- The keys of `keyof DependencyStackProps["settings"]`, the only legal
arguments of `getSetting`. -/
inductive SettingKey where
  | subnetIds : SettingKey
  | vpcId : SettingKey
  | dependencySecretNamePrefix : SettingKey
deriving Repr, DecidableEq

def SettingKey.key : SettingKey → String
  | .subnetIds => "subnetIds"
  | .vpcId => "vpcId"
  | .dependencySecretNamePrefix => "dependencySecretNamePrefix"

/-- The deferred Terraform expressions the stacks build at generation time:
literal string pieces, template interpolation, the `secretString` attribute
of a `DataAwsSecretsmanagerSecretVersion` with the given `secretId`
expression, `remoteState.getString(output)` on a `DataTerraformRemoteStateS3`
at a bucket/key, and the `Fn.jsondecode` / `Fn.lookup` / `Fn.lookupNested`
combinators. Resolution is the external evaluator's job (`World.evalE`). -/
inductive TfExpr where
  | lit (s : String) : TfExpr
  | concat (a b : TfExpr) : TfExpr
  | secretString (secretId : TfExpr) : TfExpr
  | remoteGetString (bucket key output : String) : TfExpr
  | jsondecode (e : TfExpr) : TfExpr
  | lookup (e : TfExpr) (key : String) : TfExpr
  | lookupNested (e : TfExpr) (path : List String) : TfExpr

/-- The `DataAwsSecretsmanagerSecretVersion` data source handle: its
`secretId` property (a deferred string in the consumer stack, since the
secret name is itself read through `getSetting`). -/
structure DataAwsSecretsmanagerSecretVersion where
  secretId : TfExpr

/-- The `DataTerraformRemoteStateS3` handle: the state location the
consumer's constructor points it at. -/
structure DataTerraformRemoteStateS3 where
  bucket : String
  key : String
  region : String

/-- The `BaseStackProps` interface. The revision of `BaseStack/types.ts`
matching the part_004 `BaseStack` is not in the repository snapshot; its
`dependencyStackName : string` field is witnessed by the constructor
(`props.dependencyStackName`) and by both `main.ts` call sites, and matches
the spec's consumer-mode bootstrap input (the owner unit's identifier,
empty to select Owner mode). -/
structure BaseStackProps where
  accountId : String
  region : String
  environment : String
  backendBucket : String
  dependencyStackName : String
deriving Repr, DecidableEq

/-- The `DependencyStackProps` interface (`DependencyStack/types.ts`). -/
structure DependencyStackProps extends BaseStackProps where
  settings : Settings
  dependencies : List (String × PartialDependecyAttributes)

/-- The `BaseStack` state after construction: the plain fields the
constructor copies, the derived mode flag, the S3 backend key, and the two
optional handles (populated only in consumer mode). -/
structure BaseStack where
  name : String
  accountId : String
  region : String
  environment : String
  backendBucket : String
  dependencyStackName : String
  isDependencyStack : Bool
  backendKey : String
  loadedDependencies : Option DataAwsSecretsmanagerSecretVersion
  dependencyStackRemoteState : Option DataTerraformRemoteStateS3

/-- `BaseStack.getSetting`: guard
`if (this.isDependencyStack || !this.dependencyStackRemoteState) throw`,
then `Fn.lookup(Fn.jsondecode(remoteState.getString("SettingsOutput")),
setting)`. The match on the pair renders the guard plus TS's narrowing of
the handle to non-null. -/
def BaseStack.getSetting (s : BaseStack) (setting : SettingKey) : Except String TfExpr :=
  match s.isDependencyStack, s.dependencyStackRemoteState with
  | false, some remoteState =>
      .ok (.lookup (.jsondecode (.remoteGetString remoteState.bucket remoteState.key "SettingsOutput")) setting.key)
  | _, _ => .error "Cannot read settings inside dependency stack."

/-- `BaseStack.getDependencySecretName`: the template
observing `${this.getSetting("dependencySecretNamePrefix")}/${this.environment}`
(it propagates `getSetting`'s raised error in owner mode). -/
def BaseStack.getDependencySecretName (s : BaseStack) : Except String TfExpr :=
  (s.getSetting .dependencySecretNamePrefix).map fun e =>
    .concat e (.lit ("/" ++ s.environment))

/-- `BaseStack.getDependency` (part_004): guard
`if (this.isDependencyStack || !this.loadedDependencies) throw`, then the
accessor `(...path) => Fn.lookupNested(Fn.jsondecode(secretString),
[assetId, dependencyType, ...path])`. -/
def BaseStack.getDependency (s : BaseStack) (assetId : String) (dependencyType : Dependencies) :
    Except String (List String → TfExpr) :=
  match s.isDependencyStack, s.loadedDependencies with
  | false, some loaded =>
      .ok fun path =>
        .lookupNested (.jsondecode (.secretString loaded.secretId))
          (assetId :: dependencyType.str :: path)
  | _, _ => .error "Cannot read dependencies inside dependency stack."

/-- The `BaseStack` constructor: copies the props, derives
`isDependencyStack = (dependencyStackName === "")`, installs the S3 backend
key, and — only when not the dependency stack — creates the remote-state
handle and then the secret-version handle whose `secretId` is
`this.getDependencySecretName()` (the `.error` fallback of that call is
unreachable there, since the remote-state handle was just installed). -/
def mkBaseStack (id : String) (props : BaseStackProps) : BaseStack :=
  let isDep := props.dependencyStackName == ""
  let base : BaseStack :=
    { name := id
      accountId := props.accountId
      region := props.region
      environment := props.environment
      backendBucket := props.backendBucket
      dependencyStackName := props.dependencyStackName
      isDependencyStack := isDep
      backendKey := "terraform/state/" ++ props.environment ++ "/" ++ id ++ "/terraform.tfstate"
      loadedDependencies := none
      dependencyStackRemoteState := none }
  if isDep then base
  else
    let remote : DataTerraformRemoteStateS3 :=
      { bucket := props.backendBucket
        key := "terraform/state/" ++ props.environment ++ "/" ++ props.dependencyStackName ++ "/terraform.tfstate"
        region := props.region }
    let s0 : BaseStack := { base with dependencyStackRemoteState := some remote }
    let secretId : TfExpr :=
      match s0.getDependencySecretName with
      | .ok e => e
      | .error _ => .lit ""
    { s0 with loadedDependencies := some { secretId := secretId } }

/-- The `SecretsmanagerSecret` resource the publisher creates. -/
structure SecretsmanagerSecret where
  name : String

/-- The `SecretsmanagerSecretVersion` resource: its `secretId` references
`secretManager.id`, which the store resolves to the secret created under
`name`; the model addresses it by that name. -/
structure SecretsmanagerSecretVersion where
  secretId : String
  secretString : String

/-- A `TerraformOutput` as it ends up in the stack's state: the rendered
value. -/
structure TerraformOutput where
  value : String

/-- The resources `DependencyStack.createAssets` creates. -/
structure CreatedAssets where
  dependencySecretName : String
  secretManager : SecretsmanagerSecret
  secretVersion : SecretsmanagerSecretVersion
  dependencySecretNameOutput : TerraformOutput

/-- `DependencyStack.createAssets(prefix, dependencies)`: the secret named
`${prefix}/${this.environment}` (the name is computed from the prefix
passed in, not through `getDependencySecretName`), its version storing
`JSON.stringify(dependencies)`, and the `DependencySecretNameOutput`. -/
def createAssets (environment namePrefix : String)
    (dependencies : List (String × PartialDependecyAttributes)) : CreatedAssets :=
  let dependencySecretName := namePrefix ++ "/" ++ environment
  { dependencySecretName := dependencySecretName
    secretManager := { name := dependencySecretName }
    secretVersion :=
      { secretId := dependencySecretName
        secretString := (blobJson dependencies).stringify }
    dependencySecretNameOutput :=
      { value := (Json.obj [("secret", .str dependencySecretName),
                            ("environment", .str environment)]).stringify } }

/-- The `DependencyStack` after construction: the base stack, the assets of
`createAssets`, and the `SettingsOutput` Terraform output holding
`Fn.jsonencode(props.settings)`. -/
structure DependencyStack extends BaseStack where
  assets : CreatedAssets
  settingsOutput : TerraformOutput

/-- The `DependencyStack` constructor: `super(scope, id, props)`, then
`createAssets(props.settings.dependencySecretNamePrefix, props.dependencies)`,
then the `SettingsOutput` output. -/
def mkDependencyStack (id : String) (props : DependencyStackProps) : DependencyStack :=
  let base := mkBaseStack id props.toBaseStackProps
  { base with
    assets := createAssets base.environment props.settings.dependencySecretNamePrefix props.dependencies
    settingsOutput := { value := (Settings.toJson props.settings).stringify } }

/-- Modelled from the spec (sections 4.2 and 6): the external stores as the
evaluator sees them — a secret store keyed by secret name and a remote
output surface keyed by bucket, state key and output name, each holding the
JSON document behind the stored text (serializing and re-parsing the
document is the collaborating store's and evaluator's contract, so the
model tracks documents). -/
structure World where
  secrets : String → Option Json
  stateOutputs : String → String → String → Option Json

/-- Modelled from the spec (section 4.2): the store state after the
Publisher's run — the blob document under the secret name `createAssets`
wrote, and the settings document as the `SettingsOutput` output of the
dependency stack's own state location (its S3 backend key). -/
def publishedWorld (id : String) (props : DependencyStackProps) : World :=
  { secrets := fun n =>
      if n = (mkDependencyStack id props).assets.dependencySecretName then
        some (blobJson props.dependencies)
      else none
    stateOutputs := fun bucket key output =>
      if bucket = props.backendBucket ∧
         key = "terraform/state/" ++ props.environment ++ "/" ++ id ++ "/terraform.tfstate" ∧
         output = "SettingsOutput" then
        some (Settings.toJson props.settings)
      else none }

/-- Modelled from the spec (section 2, the external two-stage evaluator):
resolution of a deferred expression against the stores. A store read
(`secretString` of a data source, `remoteState.getString`) yields the
stored document's text; `Fn.jsondecode` applied to such a read yields the
stored document itself (the serialize/parse round trip is the store's
contract; the code applies `Fn.jsondecode` to store reads only, so other
operand shapes are left unresolved); `Fn.lookup` / `Fn.lookupNested` index
into the document; interpolation concatenates after string coercion. -/
def World.evalE (w : World) : TfExpr → Option Json
  | .lit s => some (.str s)
  | .concat a b =>
      match (w.evalE a).bind Json.asString, (w.evalE b).bind Json.asString with
      | some x, some y => some (.str (x ++ y))
      | _, _ => none
  | .secretString secretId =>
      match (w.evalE secretId).bind Json.asString with
      | some n => (w.secrets n).map fun d => .str d.stringify
      | none => none
  | .remoteGetString bucket key output =>
      (w.stateOutputs bucket key output).map fun d => .str d.stringify
  | .jsondecode (.secretString secretId) =>
      match (w.evalE secretId).bind Json.asString with
      | some n => w.secrets n
      | none => none
  | .jsondecode (.remoteGetString bucket key output) => w.stateOutputs bucket key output
  | .jsondecode _ => none
  | .lookup e key =>
      match w.evalE e with
      | some j => j.lookupKey key
      | none => none
  | .lookupNested e path =>
      match w.evalE e with
      | some j => j.lookupPath path
      | none => none

/-! ## Concrete scenario (the spec's Scenarios A to D)

A publisher run with the blob `{"svc1": {"DATABASE": {"url": "https://x",
"username": "admin", "password": "pw"}, "SENTRY": {"dsn": "https://y"}}}`
and settings `{subnetIds: ["123123"], vpcId: "vpc-123",
dependencySecretNamePrefix: "asset-management"}`, and a consumer stack
addressing it. -/

def scenarioDependencies : List (String × PartialDependecyAttributes) :=
  [("svc1",
    { DATABASE := some { url := "https://x", username := "admin", password := "pw" }
      SENTRY := some { dsn := "https://y" }
      EXAMPLE := none })]

def scenarioSettings : Settings :=
  { subnetIds := ["123123"]
    vpcId := "vpc-123"
    dependencySecretNamePrefix := "asset-management" }

def scenarioProps : DependencyStackProps :=
  { accountId := "111111111111"
    region := "us-east-1"
    environment := "example-env"
    backendBucket := "state-bucket"
    dependencyStackName := ""
    settings := scenarioSettings
    dependencies := scenarioDependencies }

def scenarioDependencyStack : DependencyStack :=
  mkDependencyStack "DependencyStack" scenarioProps

def scenarioWorld : World :=
  publishedWorld "DependencyStack" scenarioProps

def scenarioConsumerProps : BaseStackProps :=
  { accountId := "111111111111"
    region := "us-east-1"
    environment := "example-env"
    backendBucket := "state-bucket"
    dependencyStackName := "DependencyStack" }

def scenarioConsumer : BaseStack :=
  mkBaseStack "AssetManagement" scenarioConsumerProps

/-- The reference a consumer call `getDependency(assetId, kind)(path...)`
emits, `none` when the guard raised instead. -/
def getDependencyRef (s : BaseStack) (assetId : String) (dependencyType : Dependencies)
    (path : List String) : Option TfExpr :=
  match s.getDependency assetId dependencyType with
  | .ok accessor => some (accessor path)
  | .error _ => none

/-! ## Helper lemmas -/

/-- In owner mode (`dependencyStackName = ""`) the constructor installs no
handles. -/
theorem mkBaseStack_owner (id : String) (p : BaseStackProps)
    (h : p.dependencyStackName = "") :
    mkBaseStack id p =
      { name := id
        accountId := p.accountId
        region := p.region
        environment := p.environment
        backendBucket := p.backendBucket
        dependencyStackName := p.dependencyStackName
        isDependencyStack := true
        backendKey := "terraform/state/" ++ p.environment ++ "/" ++ id ++ "/terraform.tfstate"
        loadedDependencies := none
        dependencyStackRemoteState := none } := by
  unfold mkBaseStack
  rw [show (p.dependencyStackName == "") = true from beq_iff_eq.mpr h]
  rfl

/-- In consumer mode the constructor installs the remote-state handle at the
owner stack's state location and the secret-version handle whose `secretId`
is the `getDependencySecretName` template. -/
theorem mkBaseStack_consumer (id : String) (p : BaseStackProps)
    (h : p.dependencyStackName ≠ "") :
    mkBaseStack id p =
      { name := id
        accountId := p.accountId
        region := p.region
        environment := p.environment
        backendBucket := p.backendBucket
        dependencyStackName := p.dependencyStackName
        isDependencyStack := false
        backendKey := "terraform/state/" ++ p.environment ++ "/" ++ id ++ "/terraform.tfstate"
        loadedDependencies := some
          { secretId :=
              .concat
                (.lookup
                  (.jsondecode (.remoteGetString p.backendBucket
                    ("terraform/state/" ++ p.environment ++ "/" ++ p.dependencyStackName ++ "/terraform.tfstate")
                    "SettingsOutput"))
                  "dependencySecretNamePrefix")
                (.lit ("/" ++ p.environment)) }
        dependencyStackRemoteState := some
          { bucket := p.backendBucket
            key := "terraform/state/" ++ p.environment ++ "/" ++ p.dependencyStackName ++ "/terraform.tfstate"
            region := p.region } } := by
  unfold mkBaseStack
  rw [show (p.dependencyStackName == "") = false from beq_eq_false_iff_ne.mpr h]
  rfl

/-- The constructor copies `environment` unchanged in both modes. -/
theorem mkBaseStack_environment (id : String) (p : BaseStackProps) :
    (mkBaseStack id p).environment = p.environment := by
  unfold mkBaseStack
  dsimp only
  split <;> rfl

/-- The published store answers at the owner stack's state location with the
settings document. -/
theorem publishedWorld_stateOutputs (did : String) (dp : DependencyStackProps) :
    (publishedWorld did dp).stateOutputs dp.backendBucket
      ("terraform/state/" ++ dp.environment ++ "/" ++ did ++ "/terraform.tfstate")
      "SettingsOutput" = some (Settings.toJson dp.settings) := by
  unfold publishedWorld
  exact if_pos ⟨rfl, rfl, rfl⟩

/-- The published store answers at the name `createAssets` wrote with the
blob document (the name as the consumer's template assembles it). -/
theorem publishedWorld_secrets (did : String) (dp : DependencyStackProps) :
    (publishedWorld did dp).secrets
      (dp.settings.dependencySecretNamePrefix ++ ("/" ++ dp.environment))
      = some (blobJson dp.dependencies) := by
  unfold publishedWorld
  dsimp only
  rw [if_pos]
  show dp.settings.dependencySecretNamePrefix ++ ("/" ++ dp.environment)
      = dp.settings.dependencySecretNamePrefix ++ "/" ++ (mkBaseStack did dp.toBaseStackProps).environment
  rw [mkBaseStack_environment]
  exact (String.append_assoc _ _ _).symm

/-- The settings document holds the secret-name prefix under its key. -/
theorem settings_toJson_namePrefix (s : Settings) :
    (Settings.toJson s).lookupKey "dependencySecretNamePrefix"
      = some (.str s.dependencySecretNamePrefix) := rfl

/-- Resolution of the consumer's `secretId` template: the settings read,
the prefix lookup and the interpolation with `/{environment}`. -/
theorem consumer_secretId_eval (did : String) (dp : DependencyStackProps) :
    (publishedWorld did dp).evalE
      (.concat
        (.lookup
          (.jsondecode (.remoteGetString dp.backendBucket
            ("terraform/state/" ++ dp.environment ++ "/" ++ did ++ "/terraform.tfstate")
            "SettingsOutput"))
          "dependencySecretNamePrefix")
        (.lit ("/" ++ dp.environment)))
      = some (.str (dp.settings.dependencySecretNamePrefix ++ ("/" ++ dp.environment))) := by
  simp only [World.evalE, publishedWorld_stateOutputs, settings_toJson_namePrefix,
    Option.bind, Json.asString]

/-- Resolution of the blob document behind the consumer's
`Fn.jsondecode(secretString)`. -/
theorem consumer_blob_eval (did : String) (dp : DependencyStackProps) :
    (publishedWorld did dp).evalE
      (.jsondecode (.secretString
        (.concat
          (.lookup
            (.jsondecode (.remoteGetString dp.backendBucket
              ("terraform/state/" ++ dp.environment ++ "/" ++ did ++ "/terraform.tfstate")
              "SettingsOutput"))
            "dependencySecretNamePrefix")
          (.lit ("/" ++ dp.environment)))))
      = some (blobJson dp.dependencies) := by
  simp only [World.evalE, publishedWorld_stateOutputs, settings_toJson_namePrefix,
    Json.asString, Option.bind, publishedWorld_secrets]

/-- Evaluation of `Fn.jsondecode(remoteState.getString(output))` is the
stored settings document. -/
theorem evalE_jsondecode_remote (w : World) (bucket key output : String) :
    w.evalE (.jsondecode (.remoteGetString bucket key output))
      = w.stateOutputs bucket key output := rfl

/-- Evaluation of `Fn.lookup` indexes the resolved document. -/
theorem evalE_lookup (w : World) (e : TfExpr) (key : String) (j : Json)
    (h : w.evalE e = some j) : w.evalE (.lookup e key) = j.lookupKey key := by
  rw [show w.evalE (.lookup e key)
      = (match w.evalE e with | some j => j.lookupKey key | none => none) from rfl, h]

/-- Evaluation of `Fn.lookupNested` walks the resolved document along the
path. -/
theorem evalE_lookupNested (w : World) (e : TfExpr) (path : List String) (j : Json)
    (h : w.evalE e = some j) : w.evalE (.lookupNested e path) = j.lookupPath path := by
  rw [show w.evalE (.lookupNested e path)
      = (match w.evalE e with | some j => j.lookupPath path | none => none) from rfl, h]

/-- The name `createAssets` computes for the secret. -/
theorem mkDependencyStack_secretName (id : String) (p : DependencyStackProps) :
    (mkDependencyStack id p).assets.dependencySecretName
      = p.settings.dependencySecretNamePrefix ++ "/" ++ p.environment := by
  show p.settings.dependencySecretNamePrefix ++ "/" ++ (mkBaseStack id p.toBaseStackProps).environment = _
  rw [mkBaseStack_environment]

/-- The source's `InferPath` agrees with the spec's repeated-indexing type
wherever the latter is defined. -/
theorem InferPath_eq_of_specPathType :
    ∀ (path : List String) (t u : Ty), specPathType t path = some u → InferPath t path = u := by
  intro path
  induction path with
  | nil =>
      intro t u h
      simp only [specPathType, Option.some.injEq] at h
      simpa [InferPath] using h
  | cons first rest ih =>
      intro t u h
      cases hidx : t.index first with
      | none =>
          simp only [specPathType, hidx] at h
          exact Option.noConfusion h
      | some tFirst =>
          simp only [specPathType, hidx] at h
          simp only [InferPath, hidx]
          exact ih tFirst u h

/-- A publisher run differing from `scenarioProps` in everything the claims
allow to differ (account, region, bucket, stack name) while agreeing on
environment, settings and dependencies. -/
def scenarioPropsOther : DependencyStackProps :=
  { accountId := "222222222222"
    region := "us-west-2"
    environment := "example-env"
    backendBucket := "other-bucket"
    dependencyStackName := ""
    settings := scenarioSettings
    dependencies := scenarioDependencies }

/-! ## The claims -/

/-- C1: a stack constructed in Owner mode (`dependencyStackName = ""`, so
`isDependencyStack` is true) has both `getDependency` and `getSetting`
raise their guard errors immediately, regardless of the arguments — the
returned value is the guard's `.error`, with no accessor constructed and
no store handle touched. -/
theorem owner_reads_raise (id : String) (p : BaseStackProps)
    (h : p.dependencyStackName = "") :
    (∀ assetId dep, (mkBaseStack id p).getDependency assetId dep
        = .error "Cannot read dependencies inside dependency stack.") ∧
    (∀ setting, (mkBaseStack id p).getSetting setting
        = .error "Cannot read settings inside dependency stack.") := by
  rw [mkBaseStack_owner id p h]
  exact ⟨fun _ _ => rfl, fun _ => rfl⟩

theorem owner_reads_raise_witness :
    (∀ assetId dep, (mkBaseStack "DependencyStack" scenarioProps.toBaseStackProps).getDependency assetId dep
        = .error "Cannot read dependencies inside dependency stack.") ∧
    (∀ setting, (mkBaseStack "DependencyStack" scenarioProps.toBaseStackProps).getSetting setting
        = .error "Cannot read settings inside dependency stack.") :=
  owner_reads_raise "DependencyStack" scenarioProps.toBaseStackProps rfl

/-- C2 (evidence of the divergence): in the part_004 accessor the generic
constraint `Path extends string[]` accepts the path `["dsn"]` against
`DATABASE` — the declared result type collapses to `never`, but the call
type-checks and at runtime constructs a reference, which then resolves to
nothing (`undefined`) against the published Scenario-A blob. Only the
earlier single-attribute accessor (`Attr extends keyof
DependecyAttributes[Dep]`) rejects the call at type-check time as the
claim, the spec and the README state. -/
theorem invalid_path_call_constructs_reference :
    pathCallAccepted ["dsn"] = true ∧
    accessorDeclaredType .DATABASE ["dsn"] = Ty.never ∧
    attrCallAccepted .DATABASE "dsn" = false ∧
    (getDependencyRef scenarioConsumer "svc1" .DATABASE ["dsn"]).isSome = true ∧
    (getDependencyRef scenarioConsumer "svc1" .DATABASE ["dsn"]).bind scenarioWorld.evalE = none :=
  ⟨rfl, rfl, rfl, rfl, rfl⟩

/-- C3: every `(assetId, kind, attribute)` present in the published blob
resolves, through the consumer's emitted reference, to exactly the blob's
value at that path; and every published setting resolves through
`getSetting` to the settings map's value under its name. -/
theorem published_values_resolve
    (did cid acct reg : String) (dp : DependencyStackProps) (hne : did ≠ "")
    (assetId : String) (dep : Dependencies) (attr : String) (v : Json)
    (hblob : (blobJson dp.dependencies).lookupPath [assetId, dep.str, attr] = some v) :
    (∃ accessor,
        (mkBaseStack cid
          { accountId := acct, region := reg, environment := dp.environment,
            backendBucket := dp.backendBucket, dependencyStackName := did }).getDependency
            assetId dep = .ok accessor ∧
        (publishedWorld did dp).evalE (accessor [attr]) = some v) ∧
    (∀ (sk : SettingKey) (u : Json),
        (Settings.toJson dp.settings).lookupKey sk.key = some u →
        ∃ e,
          (mkBaseStack cid
            { accountId := acct, region := reg, environment := dp.environment,
              backendBucket := dp.backendBucket, dependencyStackName := did }).getSetting sk
            = .ok e ∧
          (publishedWorld did dp).evalE e = some u) := by
  rw [mkBaseStack_consumer _ _ hne]
  constructor
  · refine ⟨_, rfl, ?_⟩
    rw [evalE_lookupNested _ _ _ _ (consumer_blob_eval did dp)]
    exact hblob
  · intro sk u hu
    refine ⟨_, rfl, ?_⟩
    rw [evalE_lookup _ _ _ _ ((evalE_jsondecode_remote _ _ _ _).trans (publishedWorld_stateOutputs did dp))]
    exact hu

theorem published_values_resolve_witness :
    (∃ accessor,
        (mkBaseStack "AssetManagement"
          { accountId := "111111111111", region := "us-east-1", environment := "example-env",
            backendBucket := "state-bucket", dependencyStackName := "DependencyStack" }).getDependency
            "svc1" .DATABASE = .ok accessor ∧
        (publishedWorld "DependencyStack" scenarioProps).evalE (accessor ["url"])
          = some (.str "https://x")) ∧
    (∀ (sk : SettingKey) (u : Json),
        (Settings.toJson scenarioProps.settings).lookupKey sk.key = some u →
        ∃ e,
          (mkBaseStack "AssetManagement"
            { accountId := "111111111111", region := "us-east-1", environment := "example-env",
              backendBucket := "state-bucket", dependencyStackName := "DependencyStack" }).getSetting sk
            = .ok e ∧
          (publishedWorld "DependencyStack" scenarioProps).evalE e = some u) :=
  published_values_resolve "DependencyStack" "AssetManagement" "111111111111" "us-east-1"
    scenarioProps (by decide) "svc1" .DATABASE "url" (.str "https://x") rfl

/-- C4: in consumer mode the reference `getDependency(assetId, kind)(path...)`
emits is exactly `Fn.lookupNested(Fn.jsondecode(secretString), [assetId,
kind, ...path])` over the loaded secret handle, and the reference
`getSetting(name)` emits is exactly `Fn.lookup(Fn.jsondecode(
remoteState.getString("SettingsOutput")), name)` — no other path is
emitted. -/
theorem emitted_reference_paths (cid : String) (p : BaseStackProps)
    (h : p.dependencyStackName ≠ "") :
    ∃ loaded,
      (mkBaseStack cid p).loadedDependencies = some loaded ∧
      (∀ assetId dep, ∃ accessor,
          (mkBaseStack cid p).getDependency assetId dep = .ok accessor ∧
          ∀ path, accessor path =
            .lookupNested (.jsondecode (.secretString loaded.secretId))
              (assetId :: dep.str :: path)) ∧
      ∃ remoteState,
        (mkBaseStack cid p).dependencyStackRemoteState = some remoteState ∧
        ∀ sk, (mkBaseStack cid p).getSetting sk =
          .ok (.lookup (.jsondecode
            (.remoteGetString remoteState.bucket remoteState.key "SettingsOutput")) sk.key) := by
  rw [mkBaseStack_consumer _ _ h]
  exact ⟨_, rfl, fun assetId dep => ⟨_, rfl, fun path => rfl⟩, _, rfl, fun sk => rfl⟩

theorem emitted_reference_paths_witness :
    ∃ loaded,
      (mkBaseStack "AssetManagement" scenarioConsumerProps).loadedDependencies = some loaded ∧
      (∀ assetId dep, ∃ accessor,
          (mkBaseStack "AssetManagement" scenarioConsumerProps).getDependency assetId dep
            = .ok accessor ∧
          ∀ path, accessor path =
            .lookupNested (.jsondecode (.secretString loaded.secretId))
              (assetId :: dep.str :: path)) ∧
      ∃ remoteState,
        (mkBaseStack "AssetManagement" scenarioConsumerProps).dependencyStackRemoteState
          = some remoteState ∧
        ∀ sk, (mkBaseStack "AssetManagement" scenarioConsumerProps).getSetting sk =
          .ok (.lookup (.jsondecode
            (.remoteGetString remoteState.bucket remoteState.key "SettingsOutput")) sk.key) :=
  emitted_reference_paths "AssetManagement" scenarioConsumerProps (by decide)

/-- C5: on every path the spec's repeated schema indexing accepts, the
accessor's declared type `InferPath<DependecyAttributes[Dep], Path>` equals
the schema-derived type, and the empty path declares the kind's whole
remaining structured shape (a valid narrowing stop, not an error). -/
theorem declared_type_matches_schema (dep : Dependencies) (path : List String) (t : Ty)
    (h : specPathType (DependecyAttributesTy dep) path = some t) :
    accessorDeclaredType dep path = t ∧
    accessorDeclaredType dep [] = DependecyAttributesTy dep :=
  ⟨InferPath_eq_of_specPathType path _ t h, rfl⟩

theorem declared_type_matches_schema_witness :
    accessorDeclaredType .DATABASE ["url"] = .str ∧
    accessorDeclaredType .DATABASE [] = DependecyAttributesTy .DATABASE :=
  declared_type_matches_schema .DATABASE ["url"] .str rfl

/-- C6: the Publisher writes the secret under
`{dependencySecretNamePrefix}/{environment}` (both the resource name and
the version's target), and the Resolver's `getDependencySecretName`
template resolves, against the published settings, to that same name. -/
theorem secret_name_agreement
    (did cid acct reg : String) (dp : DependencyStackProps) (hne : did ≠ "") :
    (mkDependencyStack did dp).assets.secretManager.name
        = dp.settings.dependencySecretNamePrefix ++ "/" ++ dp.environment ∧
    (mkDependencyStack did dp).assets.secretVersion.secretId
        = dp.settings.dependencySecretNamePrefix ++ "/" ++ dp.environment ∧
    ∃ e,
      (mkBaseStack cid
        { accountId := acct, region := reg, environment := dp.environment,
          backendBucket := dp.backendBucket, dependencyStackName := did }).getDependencySecretName
        = .ok e ∧
      (publishedWorld did dp).evalE e
        = some (.str ((mkDependencyStack did dp).assets.dependencySecretName)) := by
  refine ⟨mkDependencyStack_secretName did dp, mkDependencyStack_secretName did dp, ?_⟩
  rw [mkBaseStack_consumer _ _ hne]
  refine ⟨_, rfl, ?_⟩
  dsimp only [SettingKey.key]
  rw [consumer_secretId_eval did dp, mkDependencyStack_secretName did dp, String.append_assoc]

theorem secret_name_agreement_witness :
    (mkDependencyStack "DependencyStack" scenarioProps).assets.secretManager.name
        = "asset-management" ++ "/" ++ "example-env" ∧
    (mkDependencyStack "DependencyStack" scenarioProps).assets.secretVersion.secretId
        = "asset-management" ++ "/" ++ "example-env" ∧
    ∃ e,
      (mkBaseStack "AssetManagement"
        { accountId := "111111111111", region := "us-east-1", environment := "example-env",
          backendBucket := "state-bucket", dependencyStackName := "DependencyStack" }).getDependencySecretName
        = .ok e ∧
      (publishedWorld "DependencyStack" scenarioProps).evalE e
        = some (.str ((mkDependencyStack "DependencyStack" scenarioProps).assets.dependencySecretName)) :=
  secret_name_agreement "DependencyStack" "AssetManagement" "111111111111" "us-east-1"
    scenarioProps (by decide)

/-- C7: the stored secret payload, the rendered `SettingsOutput` value and
the secret name are pure functions of the dependencies, the settings and
the environment — two publisher runs agreeing on those inputs (whatever
their other props or stack ids) produce identical payloads, with no
timestamp, nonce or other hidden state entering them. -/
theorem publish_deterministic (i j : String) (p q : DependencyStackProps)
    (hdeps : p.dependencies = q.dependencies) (hset : p.settings = q.settings)
    (henv : p.environment = q.environment) :
    (mkDependencyStack i p).assets.secretVersion.secretString
        = (mkDependencyStack j q).assets.secretVersion.secretString ∧
    (mkDependencyStack i p).settingsOutput.value
        = (mkDependencyStack j q).settingsOutput.value ∧
    (mkDependencyStack i p).assets.dependencySecretName
        = (mkDependencyStack j q).assets.dependencySecretName := by
  refine ⟨?_, ?_, ?_⟩
  · show (blobJson p.dependencies).stringify = (blobJson q.dependencies).stringify
    rw [hdeps]
  · show (Settings.toJson p.settings).stringify = (Settings.toJson q.settings).stringify
    rw [hset]
  · rw [mkDependencyStack_secretName, mkDependencyStack_secretName, hset, henv]

theorem publish_deterministic_witness :
    (mkDependencyStack "DependencyStack" scenarioProps).assets.secretVersion.secretString
        = (mkDependencyStack "OtherOwner" scenarioPropsOther).assets.secretVersion.secretString ∧
    (mkDependencyStack "DependencyStack" scenarioProps).settingsOutput.value
        = (mkDependencyStack "OtherOwner" scenarioPropsOther).settingsOutput.value ∧
    (mkDependencyStack "DependencyStack" scenarioProps).assets.dependencySecretName
        = (mkDependencyStack "OtherOwner" scenarioPropsOther).assets.dependencySecretName :=
  publish_deterministic "DependencyStack" "OtherOwner" scenarioProps scenarioPropsOther rfl rfl rfl

/-- C8: the mode is derived once at construction from whether
`dependencyStackName` is the empty string, the name itself is stored
unchanged, and every later `getDependency`/`getSetting` call succeeds or
raises according to exactly that stored flag. -/
theorem mode_fixed_at_construction (id : String) (p : BaseStackProps) :
    (mkBaseStack id p).isDependencyStack = (p.dependencyStackName == "") ∧
    (mkBaseStack id p).dependencyStackName = p.dependencyStackName ∧
    (∀ assetId dep, ((mkBaseStack id p).getDependency assetId dep).isOk
        = !(mkBaseStack id p).isDependencyStack) ∧
    (∀ sk, ((mkBaseStack id p).getSetting sk).isOk
        = !(mkBaseStack id p).isDependencyStack) := by
  by_cases h : p.dependencyStackName = ""
  · rw [mkBaseStack_owner id p h]
    refine ⟨?_, rfl, fun _ _ => rfl, fun _ => rfl⟩
    rw [h]
    rfl
  · rw [mkBaseStack_consumer id p h]
    refine ⟨?_, rfl, fun _ _ => rfl, fun _ => rfl⟩
    exact (beq_eq_false_iff_ne.mpr h).symm

/-- C9: in consumer mode the constructor always installs both handles
before returning, so the guards of `getDependency` and `getSetting` cannot
fire: both calls always return an emitted reference. -/
theorem consumer_guards_unreachable (cid : String) (p : BaseStackProps)
    (h : p.dependencyStackName ≠ "") :
    (mkBaseStack cid p).loadedDependencies.isSome = true ∧
    (mkBaseStack cid p).dependencyStackRemoteState.isSome = true ∧
    (∀ assetId dep, ∃ accessor,
        (mkBaseStack cid p).getDependency assetId dep = .ok accessor) ∧
    (∀ sk, ∃ e, (mkBaseStack cid p).getSetting sk = .ok e) := by
  rw [mkBaseStack_consumer _ _ h]
  exact ⟨rfl, rfl, fun _ _ => ⟨_, rfl⟩, fun _ => ⟨_, rfl⟩⟩

theorem consumer_guards_unreachable_witness :
    (mkBaseStack "AssetManagement" scenarioConsumerProps).loadedDependencies.isSome = true ∧
    (mkBaseStack "AssetManagement" scenarioConsumerProps).dependencyStackRemoteState.isSome = true ∧
    (∀ assetId dep, ∃ accessor,
        (mkBaseStack "AssetManagement" scenarioConsumerProps).getDependency assetId dep
          = .ok accessor) ∧
    (∀ sk, ∃ e, (mkBaseStack "AssetManagement" scenarioConsumerProps).getSetting sk = .ok e) :=
  consumer_guards_unreachable "AssetManagement" scenarioConsumerProps (by decide)

/-- C10: `getDependencySecretName` delegates to `getSetting`, so on an
Owner-mode stack it raises exactly `getSetting`'s error; the Publisher
never goes through it — `createAssets` computes the secret name directly
from the prefix in its own `props.settings`. -/
theorem getDependencySecretName_owner_illegal (oid : String) (p : BaseStackProps)
    (h : p.dependencyStackName = "") (did : String) (dp : DependencyStackProps) :
    (mkBaseStack oid p).getDependencySecretName
        = .error "Cannot read settings inside dependency stack." ∧
    (∀ sk, (mkBaseStack oid p).getSetting sk
        = .error "Cannot read settings inside dependency stack.") ∧
    (mkDependencyStack did dp).assets.dependencySecretName
        = dp.settings.dependencySecretNamePrefix ++ "/" ++ dp.environment ∧
    (mkDependencyStack did dp).assets.secretManager.name
        = (mkDependencyStack did dp).assets.dependencySecretName := by
  rw [mkBaseStack_owner oid p h]
  exact ⟨rfl, fun _ => rfl, mkDependencyStack_secretName did dp, rfl⟩

theorem getDependencySecretName_owner_illegal_witness :
    (mkBaseStack "DependencyStack" scenarioProps.toBaseStackProps).getDependencySecretName
        = .error "Cannot read settings inside dependency stack." ∧
    (∀ sk, (mkBaseStack "DependencyStack" scenarioProps.toBaseStackProps).getSetting sk
        = .error "Cannot read settings inside dependency stack.") ∧
    (mkDependencyStack "DependencyStack" scenarioProps).assets.dependencySecretName
        = "asset-management" ++ "/" ++ "example-env" ∧
    (mkDependencyStack "DependencyStack" scenarioProps).assets.secretManager.name
        = (mkDependencyStack "DependencyStack" scenarioProps).assets.dependencySecretName :=
  getDependencySecretName_owner_illegal "DependencyStack" scenarioProps.toBaseStackProps rfl
    "DependencyStack" scenarioProps

end AssetManagement
